import Mathlib

/-!
Shallow embedding of the credit/metering subsystem of the voice-translator
service (src/main.py): account store, `get_user_credits`, `deduct_credits`,
`add_credits` and the `/api/add-credits` handler `add_credits_iap`.

Modelling conventions:
* Firestore documents become Lean structures; fields that some documents
  lack (`email`, `subscription_expiry`, `last_used`) are `Option`s.
* The `users` collection is a map `String → Option Account`; `usage_logs`,
  `purchase_logs` and `iap_transactions` are append-only lists.
* Float minute balances are modelled as `ℚ`; timestamps (`datetime.now()`)
  as a `Nat` parameter `now`; the 365-day expiry as `now + 365`.
* `get_user_email_from_uid` contacts Firebase; its outcome is a parameter
  `email_lookup : Option String` (`none` = the lookup raised, in which case
  the source returns `""`).
* In `deduct_credits` the whole body runs under one `try/except` that
  returns `False`; the only fallible step after the balance write is the
  `usage_logs` append, modelled by the flag `log_add_throws`.
-/

namespace Config

def ADMIN_EMAIL : String := "admin@gmail.com"

def FREE_MINUTES : ℚ := 30

/-- Product catalog: product id ↦ minutes (−1 is the unlimited sentinel). -/
def PACKAGES : List (String × Int) :=
  [("com.voicetranslator.starter", 300),
   ("com.voicetranslator.popular", 900),
   ("com.voicetranslator.professional", 1800),
   ("com.voicetranslator.unlimited", -1)]

end Config

/-- The process-global model configuration, read when a usage log entry is
built (only string identifiers reach the credit subsystem). -/
structure ModelConfig where
  audio_model : String
  translation_model : String
  quality_tier : String
deriving DecidableEq, Repr

/-- One document of the `users` collection. -/
structure Account where
  email : Option String
  remaining_minutes : ℚ
  total_purchased_minutes : ℚ
  used_minutes : ℚ
  created_at : Nat
  is_admin : Bool
  is_premium : Bool
  is_unlimited : Bool
  subscription_type : String
  subscription_expiry : Option Nat
  last_used : Option Nat
deriving DecidableEq, Repr

/-- One document of the `usage_logs` collection. -/
structure UsageLog where
  user_id : String
  minutes_used : ℚ
  remaining_after : ℚ
  timestamp : Nat
  type : String
  audio_model : String
  translation_model : String
  quality_tier : String
deriving DecidableEq, Repr

/-- One document of the `purchase_logs` collection. -/
structure PurchaseLog where
  user_id : String
  minutes_added : Int
  package_type : String
  is_unlimited : Bool
  timestamp : Nat
deriving DecidableEq, Repr

/-- One document of the `iap_transactions` collection (keyed by
`transaction_id`). -/
structure IapTx where
  user_id : String
  product_id : String
  transaction_id : String
  minutes_added : Int
  package_type : String
  timestamp : Nat
  platform : String
deriving DecidableEq, Repr

/-- The document store as seen by the credit subsystem. -/
structure Store where
  users : String → Option Account
  usage_logs : List UsageLog
  purchase_logs : List PurchaseLog
  iap_transactions : List IapTx

/-- Point update of the `users` collection (`document(uid).set/update`). -/
def setUser (f : String → Option Account) (uid : String) (a : Account) :
    String → Option Account :=
  fun x => if x == uid then some a else f x

/-- Model of `get_user_email_from_uid`: returns the Firebase email, `""` when the
record has no email or the lookup raises. -/
def get_user_email_from_uid (email_lookup : Option String) : String :=
  email_lookup.getD ""

/-- Model of `get_user_credits` (src/main.py lines 537-595): fetch the account,
creating it on first sight (admin detection by email), and lazily patch
pre-email-era records. Returns the resulting view and the new store. -/
def get_user_credits (email_lookup : Option String) (now : Nat) (s : Store)
    (user_id : String) : Account × Store :=
  match s.users user_id with
  | none =>
    let user_email := get_user_email_from_uid email_lookup
    let is_admin := user_email == Config.ADMIN_EMAIL
    let initial_credits : Account :=
      { email := some user_email
        remaining_minutes := if is_admin then 999999 else Config.FREE_MINUTES
        total_purchased_minutes := if is_admin then 999999 else 0
        used_minutes := 0
        created_at := now
        is_admin := is_admin
        is_premium := false
        is_unlimited := is_admin
        subscription_type := if is_admin then "unlimited" else "free"
        subscription_expiry := none
        last_used := none }
    (initial_credits, { s with users := setUser s.users user_id initial_credits })
  | some user_data =>
    match user_data.email with
    | none =>
      let user_email := get_user_email_from_uid email_lookup
      let is_admin := user_email == Config.ADMIN_EMAIL
      let patched : Account :=
        { user_data with
          email := some user_email
          is_admin := is_admin
          is_premium := user_data.is_premium
          is_unlimited := user_data.is_unlimited
          subscription_type := user_data.subscription_type
          subscription_expiry := user_data.subscription_expiry }
      (patched, { s with users := setUser s.users user_id patched })
    | some _ => (user_data, s)

/-- The check-and-write phase of `deduct_credits` (lines 611-647), taking the
snapshot `user_data` read earlier; the balance write is computed from the
snapshot and applied unconditionally, exactly as in the source. -/
def debitCommit (cfg : ModelConfig) (log_add_throws : Bool) (now : Nat)
    (s : Store) (user_id : String) (user_data : Account)
    (minutes_used : ℚ) : Bool × Store :=
  if user_data.is_admin || user_data.is_unlimited then (true, s)
  else if user_data.remaining_minutes < minutes_used then (false, s)
  else
    let new_remaining := user_data.remaining_minutes - minutes_used
    let new_used := user_data.used_minutes + minutes_used
    let updated : Account :=
      { user_data with
        remaining_minutes := new_remaining
        used_minutes := new_used
        last_used := some now }
    let s1 : Store := { s with users := setUser s.users user_id updated }
    if log_add_throws then (false, s1)
    else
      (true,
        { s1 with usage_logs := s1.usage_logs ++
            [{ user_id := user_id
               minutes_used := minutes_used
               remaining_after := new_remaining
               timestamp := now
               type := "translation"
               audio_model := cfg.audio_model
               translation_model := cfg.translation_model
               quality_tier := cfg.quality_tier }] })

/-- Model of `deduct_credits` (lines 601-651): read the account document, then run the
check-and-write phase on that snapshot. -/
def deduct_credits (cfg : ModelConfig) (log_add_throws : Bool) (now : Nat)
    (s : Store) (user_id : String) (minutes_used : ℚ) : Bool × Store :=
  match s.users user_id with
  | none => (false, s)
  | some user_data => debitCommit cfg log_add_throws now s user_id user_data minutes_used

/-- Model of `add_credits` (lines 653-712): create-or-credit the account (−1 is the
unlimited sentinel) and append one purchase-log entry. -/
def add_credits (now : Nat) (s : Store) (user_id : String)
    (minutes_to_add : Int) (package_type : String) : Bool × Store :=
  let is_unlimited := minutes_to_add == -1
  let s1 : Store :=
    match s.users user_id with
    | none =>
      let created : Account :=
        { email := none
          remaining_minutes := if is_unlimited then 999999 else (minutes_to_add : ℚ)
          total_purchased_minutes := if is_unlimited then 999999 else (minutes_to_add : ℚ)
          used_minutes := 0
          created_at := now
          is_admin := false
          is_premium := true
          is_unlimited := is_unlimited
          subscription_type := if is_unlimited then "unlimited" else "premium"
          subscription_expiry := if is_unlimited then none else some (now + 365)
          last_used := none }
      { s with users := setUser s.users user_id created }
    | some user_data =>
      if is_unlimited then
        let updated : Account :=
          { user_data with
            remaining_minutes := 999999
            total_purchased_minutes := user_data.total_purchased_minutes + 999999
            is_premium := true
            is_unlimited := true
            subscription_type := "unlimited"
            subscription_expiry := none }
        { s with users := setUser s.users user_id updated }
      else
        let updated : Account :=
          { user_data with
            remaining_minutes := user_data.remaining_minutes + (minutes_to_add : ℚ)
            total_purchased_minutes := user_data.total_purchased_minutes + (minutes_to_add : ℚ)
            is_premium := true
            is_unlimited := false
            subscription_type := "premium"
            subscription_expiry := some (now + 365) }
        { s with users := setUser s.users user_id updated }
  (true,
    { s1 with purchase_logs := s1.purchase_logs ++
        [{ user_id := user_id
           minutes_added := minutes_to_add
           package_type := package_type
           is_unlimited := is_unlimited
           timestamp := now }] })

/-- Body of the `/api/add-credits` request. -/
structure IAPRequest where
  user_id : String
  product_id : String
  transaction_id : String
  minutes : Int
  package_type : String
deriving DecidableEq, Repr

/-- What the `/api/add-credits` handler surfaces: a JSON body
(`ok success message`) or an HTTP error. (The handler's blanket `except`
re-raises every inner `HTTPException` as status 500, so all error branches
surface as 500.) -/
inductive IapResponse where
  | ok (success : Bool) (message : String)
  | http_error (status : Nat) (detail : String)
deriving DecidableEq, Repr

/-- The `success` flag of the JSON body (`false` for HTTP errors). -/
def IapResponse.isSuccess : IapResponse → Bool
  | .ok b _ => b
  | .http_error _ _ => false

/-- Model of `document(str(transaction_id)).get().exists` on `iap_transactions`. -/
def txExists (s : Store) (transaction_id : String) : Bool :=
  s.iap_transactions.any fun t => t.transaction_id == transaction_id

/-- Model of `add_credits_iap` (lines 920-971): validate, run the idempotency check,
credit, record the transaction id, then re-read the credits (which may
lazily patch the account). -/
def add_credits_iap (email_lookup : Option String) (now : Nat) (s : Store)
    (req : IAPRequest) : IapResponse × Store :=
  if req.user_id == "" || req.product_id == "" || req.transaction_id == "" then
    (.http_error 500 "Missing required fields", s)
  else if !(Config.PACKAGES.any fun p => p.1 == req.product_id) then
    (.http_error 500 ("Invalid product ID: " ++ req.product_id), s)
  else if txExists s req.transaction_id then
    (.ok false "Transaction already processed", s)
  else
    let r := add_credits now s req.user_id req.minutes req.package_type
    if r.1 then
      let s2 : Store :=
        { r.2 with iap_transactions := r.2.iap_transactions ++
            [{ user_id := req.user_id
               product_id := req.product_id
               transaction_id := req.transaction_id
               minutes_added := req.minutes
               package_type := req.package_type
               timestamp := now
               platform := "ios" }] }
      let r3 := get_user_credits email_lookup now s2 req.user_id
      (.ok true ("Successfully added " ++ req.package_type), r3.2)
    else
      (.http_error 500 "Failed to add credits", r.2)

/-- One debit request in a sequence. -/
structure DebitOp where
  user_id : String
  minutes_used : ℚ
  now : Nat
  log_add_throws : Bool

/-- Run a sequence of `deduct_credits` calls, collecting each call's boolean
result and threading the store. -/
def runDebits (cfg : ModelConfig) (s : Store) : List DebitOp → List Bool × Store
  | [] => ([], s)
  | op :: ops =>
    let r := deduct_credits cfg op.log_add_throws op.now s op.user_id op.minutes_used
    let rest := runDebits cfg r.2 ops
    (r.1 :: rest.1, rest.2)

/-- Every non-admin, non-unlimited account in a `users` map has a
non-negative remaining balance. -/
def UsersNonneg (f : String → Option Account) : Prop :=
  ∀ uid u, f uid = some u → u.is_admin = false → u.is_unlimited = false →
    0 ≤ u.remaining_minutes

/-- Balance invariant: every non-admin, non-unlimited account at rest has a
non-negative remaining balance. -/
def StoreNonneg (s : Store) : Prop :=
  UsersNonneg s.users

lemma setUser_apply (f : String → Option Account) (uid : String) (a : Account)
    (x : String) : setUser f uid a x = if x == uid then some a else f x := rfl

lemma setUser_self (f : String → Option Account) (uid : String) (a : Account) :
    setUser f uid a uid = some a := by
  simp [setUser]

/-- The process-wide default model configuration (`ModelConfig.__init__`). -/
def cfg0 : ModelConfig :=
  { audio_model := "gpt-4o-transcribe"
    translation_model := "gpt-4o-mini"
    quality_tier := "premium" }

/-- Example fixture: the designated administrator's account. -/
def adminAccount : Account :=
  { email := some "admin@gmail.com"
    remaining_minutes := 999999
    total_purchased_minutes := 999999
    used_minutes := 0
    created_at := 0
    is_admin := true
    is_premium := false
    is_unlimited := true
    subscription_type := "unlimited"
    subscription_expiry := none
    last_used := none }

/-- Example fixture: a fresh free-tier account. -/
def freeAccount : Account :=
  { email := some "user@example.com"
    remaining_minutes := 30
    total_purchased_minutes := 0
    used_minutes := 0
    created_at := 0
    is_admin := false
    is_premium := false
    is_unlimited := false
    subscription_type := "free"
    subscription_expiry := none
    last_used := none }

/-- Example fixture: a store holding the admin account and one free-tier
account. -/
def store0 : Store :=
  { users := fun x =>
      if x == "admin-uid" then some adminAccount
      else if x == "user-uid" then some freeAccount
      else none
    usage_logs := []
    purchase_logs := []
    iap_transactions := [] }

/-- Claim C3: for every account with `is_admin = true` or
`is_unlimited = true` and every requested debit cost of any magnitude,
`deduct_credits` succeeds and returns the store entirely unchanged: no field
of any account is touched and no log entry is appended. -/
theorem admin_bypass_debit (cfg : ModelConfig) (lt : Bool) (now : Nat)
    (s : Store) (uid : String) (c : ℚ) (u : Account)
    (hu : s.users uid = some u)
    (h : u.is_admin = true ∨ u.is_unlimited = true) :
    deduct_credits cfg lt now s uid c = (true, s) := by
  unfold deduct_credits debitCommit
  rw [hu]
  rcases h with h | h <;> simp [h]

/-- Witness for C3 at the admin fixture with a debit of 123456 minutes. -/
theorem admin_bypass_debit_witness :
    deduct_credits cfg0 false 7 store0 "admin-uid" 123456 = (true, store0) :=
  admin_bypass_debit cfg0 false 7 store0 "admin-uid" 123456 adminAccount
    (by decide) (Or.inl (by decide))

lemma UsersNonneg_setUser (f : String → Option Account) (uid : String)
    (a : Account) (hf : UsersNonneg f)
    (ha : a.is_admin = false → a.is_unlimited = false → 0 ≤ a.remaining_minutes) :
    UsersNonneg (setUser f uid a) := by
  intro x u hx hadm hunl
  by_cases hxe : (x == uid) = true
  · simp only [setUser, hxe, if_true, Option.some.injEq] at hx
    subst hx
    exact ha hadm hunl
  · simp only [setUser, hxe] at hx
    simp at hx
    exact hf x u hx hadm hunl

lemma debitCommit_preserves_nonneg (cfg : ModelConfig) (lt : Bool) (now : Nat)
    (s : Store) (uid : String) (u : Account) (m : ℚ) (h : StoreNonneg s) :
    StoreNonneg (debitCommit cfg lt now s uid u m).2 := by
  unfold debitCommit
  by_cases hadm : (u.is_admin || u.is_unlimited) = true
  · simpa [hadm] using h
  · by_cases hlt : u.remaining_minutes < m
    · simpa [hadm, hlt] using h
    · have hrem : (0 : ℚ) ≤ u.remaining_minutes - m :=
        sub_nonneg.mpr (le_of_not_lt hlt)
      have hset : UsersNonneg (setUser s.users uid
          { u with remaining_minutes := u.remaining_minutes - m
                   used_minutes := u.used_minutes + m
                   last_used := some now }) :=
        UsersNonneg_setUser _ _ _ h (fun _ _ => hrem)
      cases lt <;> simp only [hadm, hlt, if_false, Bool.false_eq_true] <;>
        simpa [StoreNonneg] using hset

lemma deduct_preserves_nonneg (cfg : ModelConfig) (lt : Bool) (now : Nat)
    (s : Store) (uid : String) (m : ℚ) (h : StoreNonneg s) :
    StoreNonneg (deduct_credits cfg lt now s uid m).2 := by
  unfold deduct_credits
  cases hu : s.users uid with
  | none => exact h
  | some u => exact debitCommit_preserves_nonneg cfg lt now s uid u m h

lemma runDebits_preserves_nonneg (cfg : ModelConfig) (ops : List DebitOp) :
    ∀ s : Store, StoreNonneg s → StoreNonneg (runDebits cfg s ops).2 := by
  induction ops with
  | nil => intro s h; exact h
  | cons op ops ih =>
    intro s h
    simp only [runDebits]
    exact ih _ (deduct_preserves_nonneg _ _ _ _ _ _ h)

/-- Claim C1: starting from any store in which every non-admin, non-unlimited
account has a non-negative balance, no sequence of `deduct_credits` calls can
drive any such balance below zero; and a debit whose cost exceeds the current
balance of a non-admin, non-unlimited account returns `false` and leaves the
entire store (all account fields and all logs) unchanged. -/
theorem debit_nonnegativity (cfg : ModelConfig) (s : Store)
    (ops : List DebitOp) (hinv : StoreNonneg s) :
    StoreNonneg (runDebits cfg s ops).2 ∧
    ∀ uid u c lt now, s.users uid = some u → u.is_admin = false →
      u.is_unlimited = false → u.remaining_minutes < c →
      deduct_credits cfg lt now s uid c = (false, s) := by
  constructor
  · exact runDebits_preserves_nonneg cfg ops s hinv
  · intro uid u c lt now hu hadm hunl hlt
    unfold deduct_credits debitCommit
    rw [hu]
    simp [hadm, hunl, hlt]

lemma store0_nonneg : StoreNonneg store0 := by
  intro uid u hu hadm hunl
  by_cases h1 : uid = "admin-uid"
  · simp only [store0, h1, beq_self_eq_true, if_true, Option.some.injEq] at hu
    subst hu
    simp [adminAccount] at hadm
  · by_cases h2 : uid = "user-uid"
    · subst h2
      simp [store0] at hu
      subst hu
      norm_num [freeAccount]
    · simp [store0, h1, h2] at hu

/-- Witness for C1 at the free-tier fixture: a 40-minute debit against a
30-minute balance followed by a 10-minute debit. -/
theorem debit_nonnegativity_witness :
    StoreNonneg (runDebits cfg0 store0
      [⟨"user-uid", 40, 1, false⟩, ⟨"user-uid", 10, 2, false⟩]).2 ∧
    ∀ uid u c lt now, store0.users uid = some u → u.is_admin = false →
      u.is_unlimited = false → u.remaining_minutes < c →
      deduct_credits cfg0 lt now store0 uid c = (false, store0) :=
  debit_nonnegativity cfg0 store0
    [⟨"user-uid", 40, 1, false⟩, ⟨"user-uid", 10, 2, false⟩] store0_nonneg

/-- Equation for a fully successful `deduct_credits` call (sufficient funds,
non-privileged account, log append succeeds). -/
lemma deduct_success_eq (cfg : ModelConfig) (now : Nat) (s : Store)
    (uid : String) (u : Account) (m : ℚ) (hu : s.users uid = some u)
    (hadm : u.is_admin = false) (hunl : u.is_unlimited = false)
    (hle : m ≤ u.remaining_minutes) :
    deduct_credits cfg false now s uid m =
      (true,
        { users := setUser s.users uid
            { u with remaining_minutes := u.remaining_minutes - m
                     used_minutes := u.used_minutes + m
                     last_used := some now }
          usage_logs := s.usage_logs ++
            [{ user_id := uid
               minutes_used := m
               remaining_after := u.remaining_minutes - m
               timestamp := now
               type := "translation"
               audio_model := cfg.audio_model
               translation_model := cfg.translation_model
               quality_tier := cfg.quality_tier }]
          purchase_logs := s.purchase_logs
          iap_transactions := s.iap_transactions }) := by
  unfold deduct_credits debitCommit
  rw [hu]
  simp [hadm, hunl, not_lt.mpr hle]

lemma runDebits_usage (cfg : ModelConfig) (now : Nat) (uid : String) :
    ∀ (ms : List ℚ) (s : Store) (u : Account),
      s.users uid = some u → u.is_admin = false → u.is_unlimited = false →
      (∀ m ∈ ms, 0 ≤ m) → ms.sum ≤ u.remaining_minutes →
      (runDebits cfg s (ms.map fun m => ⟨uid, m, now, false⟩)).1 =
        List.replicate ms.length true ∧
      ∃ u', (runDebits cfg s (ms.map fun m => ⟨uid, m, now, false⟩)).2.users uid
          = some u' ∧
        u'.remaining_minutes = u.remaining_minutes - ms.sum ∧
        u'.used_minutes = u.used_minutes + ms.sum ∧
        u'.is_admin = false ∧ u'.is_unlimited = false := by
  intro ms
  induction ms with
  | nil =>
    intro s u hu hadm hunl _ _
    exact ⟨rfl, u, hu, by simp, by simp, hadm, hunl⟩
  | cons m rest ih =>
    intro s u hu hadm hunl hnn hsum
    rw [List.sum_cons] at hsum
    have hr0 : (0 : ℚ) ≤ rest.sum :=
      List.sum_nonneg fun x hx => hnn x (List.mem_cons_of_mem _ hx)
    have hmle : m ≤ u.remaining_minutes :=
      le_trans (le_add_of_nonneg_right hr0) hsum
    simp only [List.map_cons, runDebits,
      deduct_success_eq cfg now s uid u m hu hadm hunl hmle]
    have hrec := ih
      ({ users := setUser s.users uid
          { u with remaining_minutes := u.remaining_minutes - m
                   used_minutes := u.used_minutes + m
                   last_used := some now }
         usage_logs := s.usage_logs ++
           [{ user_id := uid
              minutes_used := m
              remaining_after := u.remaining_minutes - m
              timestamp := now
              type := "translation"
              audio_model := cfg.audio_model
              translation_model := cfg.translation_model
              quality_tier := cfg.quality_tier }]
         purchase_logs := s.purchase_logs
         iap_transactions := s.iap_transactions })
      { u with remaining_minutes := u.remaining_minutes - m
               used_minutes := u.used_minutes + m
               last_used := some now }
      (setUser_self _ _ _) hadm hunl
      (fun x hx => hnn x (List.mem_cons_of_mem _ hx))
      (by simpa [le_sub_iff_add_le, add_comm] using hsum)
    refine ⟨?_, ?_⟩
    · simp only [List.length_cons, List.replicate_succ, hrec.1]
    · obtain ⟨u', hu', hrem, hused, ha, hl⟩ := hrec.2
      exact ⟨u', hu', by rw [hrem]; simp [List.sum_cons]; ring,
        by rw [hused]; simp [List.sum_cons]; ring, ha, hl⟩

/-- Claim C5: on every successful debit of cost `c` against a non-admin,
non-unlimited account, `used_minutes` rises by exactly `c` and
`remaining_minutes` falls by exactly `c`; after a sequence of debits
`m1..mN` (all non-negative, total within the balance) from a fresh account
(`used_minutes = 0`) every debit succeeds, `used_minutes` equals the sum of
the `mi` and `remaining_minutes` equals the initial balance minus that sum;
and `used_minutes` never decreases across any debit of non-negative cost. -/
theorem usage_accounting (cfg : ModelConfig) (now : Nat) (s : Store)
    (uid : String) (u : Account) (ms : List ℚ)
    (hu : s.users uid = some u) (hadm : u.is_admin = false)
    (hunl : u.is_unlimited = false) (hused : u.used_minutes = 0)
    (hnn : ∀ m ∈ ms, 0 ≤ m) (hsum : ms.sum ≤ u.remaining_minutes) :
    ((runDebits cfg s (ms.map fun m => ⟨uid, m, now, false⟩)).1 =
        List.replicate ms.length true ∧
      ∃ u', (runDebits cfg s (ms.map fun m => ⟨uid, m, now, false⟩)).2.users uid
          = some u' ∧
        u'.used_minutes = ms.sum ∧
        u'.remaining_minutes = u.remaining_minutes - ms.sum) ∧
    (∀ (lt : Bool) (now2 : Nat) (s2 : Store) (uid2 : String)
        (u2 u2' : Account) (c : ℚ),
      s2.users uid2 = some u2 → u2.is_admin = false → u2.is_unlimited = false →
      (deduct_credits cfg lt now2 s2 uid2 c).1 = true →
      ((deduct_credits cfg lt now2 s2 uid2 c).2).users uid2 = some u2' →
      u2'.used_minutes = u2.used_minutes + c ∧
      u2'.remaining_minutes = u2.remaining_minutes - c) ∧
    (∀ (lt : Bool) (now2 : Nat) (s2 : Store) (uid2 : String)
        (u2 u2' : Account) (c : ℚ),
      s2.users uid2 = some u2 → 0 ≤ c →
      ((deduct_credits cfg lt now2 s2 uid2 c).2).users uid2 = some u2' →
      u2.used_minutes ≤ u2'.used_minutes) := by
  refine ⟨?_, ?_, ?_⟩
  · obtain ⟨hres, u', hu', hrem, husd, -, -⟩ :=
      runDebits_usage cfg now uid ms s u hu hadm hunl hnn hsum
    exact ⟨hres, u', hu', by rw [husd, hused, zero_add], hrem⟩
  · intro lt now2 s2 uid2 u2 u2' c hu2 hadm2 hunl2 hres hu2'
    unfold deduct_credits debitCommit at hres hu2'
    rw [hu2] at hres hu2'
    by_cases hlt : u2.remaining_minutes < c
    · simp [hadm2, hunl2, hlt] at hres
    · cases lt
      · simp [hadm2, hunl2, hlt, setUser_self] at hu2'
        subst hu2'
        exact ⟨rfl, rfl⟩
      · simp [hadm2, hunl2, hlt] at hres
  · intro lt now2 s2 uid2 u2 u2' c hu2 hc hu2'
    unfold deduct_credits debitCommit at hu2'
    rw [hu2] at hu2'
    by_cases hadm2 : (u2.is_admin || u2.is_unlimited) = true
    · simp only [hadm2, if_true] at hu2'
      rw [hu2] at hu2'
      obtain rfl : u2 = u2' := Option.some.inj hu2'
      exact le_refl _
    · by_cases hlt : u2.remaining_minutes < c
      · simp only [hadm2, Bool.false_eq_true, if_false, hlt, if_true] at hu2'
        rw [hu2] at hu2'
        obtain rfl : u2 = u2' := Option.some.inj hu2'
        exact le_refl _
      · cases lt
        all_goals
          simp [hadm2, hlt, setUser_self] at hu2'
          subst hu2'
          exact le_add_of_nonneg_right hc

/-- Witness for C5: debits of 10 and 5 minutes against the 30-minute
free-tier fixture. -/
theorem usage_accounting_witness :
    ((runDebits cfg0 store0
        (([10, 5] : List ℚ).map fun m => ⟨"user-uid", m, 3, false⟩)).1 =
        List.replicate ([10, 5] : List ℚ).length true ∧
      ∃ u', (runDebits cfg0 store0
          (([10, 5] : List ℚ).map fun m => ⟨"user-uid", m, 3, false⟩)).2.users
            "user-uid" = some u' ∧
        u'.used_minutes = ([10, 5] : List ℚ).sum ∧
        u'.remaining_minutes = freeAccount.remaining_minutes -
          ([10, 5] : List ℚ).sum) ∧
    (∀ (lt : Bool) (now2 : Nat) (s2 : Store) (uid2 : String)
        (u2 u2' : Account) (c : ℚ),
      s2.users uid2 = some u2 → u2.is_admin = false → u2.is_unlimited = false →
      (deduct_credits cfg0 lt now2 s2 uid2 c).1 = true →
      ((deduct_credits cfg0 lt now2 s2 uid2 c).2).users uid2 = some u2' →
      u2'.used_minutes = u2.used_minutes + c ∧
      u2'.remaining_minutes = u2.remaining_minutes - c) ∧
    (∀ (lt : Bool) (now2 : Nat) (s2 : Store) (uid2 : String)
        (u2 u2' : Account) (c : ℚ),
      s2.users uid2 = some u2 → 0 ≤ c →
      ((deduct_credits cfg0 lt now2 s2 uid2 c).2).users uid2 = some u2' →
      u2.used_minutes ≤ u2'.used_minutes) :=
  usage_accounting cfg0 3 store0 "user-uid" freeAccount [10, 5]
    (by decide) (by decide) (by decide) (by decide)
    (by norm_num) (by norm_num [freeAccount])

/-- Claim C7: resolving a `user_id` with no account record creates an account
whose fields depend only on the resolved email: the configured admin address
yields `is_admin = true`, `is_unlimited = true`, `subscription_type =
"unlimited"` and the 999999 sentinel balance; any other email yields the
non-admin defaults with `subscription_type = "free"` and 30 free minutes; a
failed identity lookup behaves as the empty email and hence yields the
non-admin defaults. -/
theorem new_account_bootstrap (email_lookup : Option String) (now : Nat)
    (s : Store) (uid : String) (h : s.users uid = none) :
    ∃ a, ((get_user_credits email_lookup now s uid).2).users uid = some a ∧
      (get_user_credits email_lookup now s uid).1 = a ∧
      a.is_admin = (get_user_email_from_uid email_lookup == Config.ADMIN_EMAIL) ∧
      a.email = some (get_user_email_from_uid email_lookup) ∧
      a.used_minutes = 0 ∧
      (a.is_admin = true →
        a.is_unlimited = true ∧ a.subscription_type = "unlimited" ∧
        a.remaining_minutes = 999999) ∧
      (a.is_admin = false →
        a.is_unlimited = false ∧ a.subscription_type = "free" ∧
        a.remaining_minutes = Config.FREE_MINUTES) ∧
      (email_lookup = none → a.is_admin = false) := by
  unfold get_user_credits
  rw [h]
  by_cases hadm : (get_user_email_from_uid email_lookup == Config.ADMIN_EMAIL) = true
  · refine ⟨_, setUser_self _ _ _, rfl, rfl, rfl, rfl,
      fun _ => ⟨by simp [hadm], by simp [hadm], by simp [hadm]⟩,
      fun hc => by simp [hadm] at hc, fun he => ?_⟩
    subst he
    simp [get_user_email_from_uid, Config.ADMIN_EMAIL] at hadm
  · simp only [Bool.not_eq_true] at hadm
    exact ⟨_, setUser_self _ _ _, rfl, rfl, rfl, rfl,
      fun hc => by simp [hadm] at hc,
      fun _ => ⟨by simp [hadm], by simp [hadm], by simp [hadm]⟩,
      fun _ => by simp [hadm]⟩

/-- Witness for C7: an unseen user whose email resolves to the admin address,
applied to the empty-users fixture. -/
theorem new_account_bootstrap_witness :
    ∃ a, ((get_user_credits (some "admin@gmail.com") 4 store0 "new-uid").2).users
        "new-uid" = some a ∧
      (get_user_credits (some "admin@gmail.com") 4 store0 "new-uid").1 = a ∧
      a.is_admin = (get_user_email_from_uid (some "admin@gmail.com") ==
        Config.ADMIN_EMAIL) ∧
      a.email = some (get_user_email_from_uid (some "admin@gmail.com")) ∧
      a.used_minutes = 0 ∧
      (a.is_admin = true →
        a.is_unlimited = true ∧ a.subscription_type = "unlimited" ∧
        a.remaining_minutes = 999999) ∧
      (a.is_admin = false →
        a.is_unlimited = false ∧ a.subscription_type = "free" ∧
        a.remaining_minutes = Config.FREE_MINUTES) ∧
      (some "admin@gmail.com" = none → a.is_admin = false) :=
  new_account_bootstrap (some "admin@gmail.com") 4 store0 "new-uid" (by decide)

/-- Claim C8: crediting an existing account with the unlimited sentinel −1
sets `is_unlimited = true` and `subscription_type = "unlimited"`, puts the
999999 sentinel in `remaining_minutes`, clears `subscription_expiry`, adds
the sentinel magnitude to `total_purchased_minutes`, and afterwards every
debit of any size returns success with the store unchanged (no decrement). -/
theorem unlimited_sentinel_credit (now : Nat) (s : Store) (uid : String)
    (pkg : String) (u0 : Account) (hu0 : s.users uid = some u0) :
    (add_credits now s uid (-1) pkg).1 = true ∧
    ∃ u1, ((add_credits now s uid (-1) pkg).2).users uid = some u1 ∧
      u1.is_unlimited = true ∧
      u1.subscription_type = "unlimited" ∧
      u1.remaining_minutes = 999999 ∧
      u1.subscription_expiry = none ∧
      u1.total_purchased_minutes = u0.total_purchased_minutes + 999999 ∧
      ∀ (cfg : ModelConfig) (lt : Bool) (now2 : Nat) (c : ℚ),
        deduct_credits cfg lt now2 (add_credits now s uid (-1) pkg).2 uid c =
          (true, (add_credits now s uid (-1) pkg).2) := by
  have hs' : add_credits now s uid (-1) pkg =
      (true,
        { users := setUser s.users uid
            { u0 with remaining_minutes := 999999
                      total_purchased_minutes := u0.total_purchased_minutes + 999999
                      is_premium := true
                      is_unlimited := true
                      subscription_type := "unlimited"
                      subscription_expiry := none }
          usage_logs := s.usage_logs
          purchase_logs := s.purchase_logs ++
            [{ user_id := uid
               minutes_added := -1
               package_type := pkg
               is_unlimited := true
               timestamp := now }]
          iap_transactions := s.iap_transactions }) := by
    unfold add_credits
    rw [hu0]
    rfl
  rw [hs']
  refine ⟨rfl, _, setUser_self _ _ _, rfl, rfl, rfl, rfl, rfl, ?_⟩
  intro cfg lt now2 c
  unfold deduct_credits debitCommit
  simp [setUser_self]

/-- Witness for C8: the unlimited purchase applied to the free-tier fixture,
then checked against the instantiated conclusion. -/
theorem unlimited_sentinel_credit_witness :
    (add_credits 9 store0 "user-uid" (-1) "unlimited").1 = true ∧
    ∃ u1, ((add_credits 9 store0 "user-uid" (-1) "unlimited").2).users
        "user-uid" = some u1 ∧
      u1.is_unlimited = true ∧
      u1.subscription_type = "unlimited" ∧
      u1.remaining_minutes = 999999 ∧
      u1.subscription_expiry = none ∧
      u1.total_purchased_minutes = freeAccount.total_purchased_minutes + 999999 ∧
      ∀ (cfg : ModelConfig) (lt : Bool) (now2 : Nat) (c : ℚ),
        deduct_credits cfg lt now2
            (add_credits 9 store0 "user-uid" (-1) "unlimited").2 "user-uid" c =
          (true, (add_credits 9 store0 "user-uid" (-1) "unlimited").2) :=
  unlimited_sentinel_credit 9 store0 "user-uid" "unlimited" freeAccount
    (by decide)

/-- Claim C10: crediting a `user_id` with no account record does not fail:
it creates a fresh account with `is_admin = false`, `is_premium = true`,
`used_minutes = 0` and `remaining_minutes` equal to the credited minutes
(999999 when the amount is the unlimited sentinel −1), and appends exactly
one purchase-log entry. -/
theorem fresh_account_credit (now : Nat) (s : Store) (uid : String)
    (m : Int) (pkg : String) (h : s.users uid = none) :
    (add_credits now s uid m pkg).1 = true ∧
    ((add_credits now s uid m pkg).2).purchase_logs.length =
      s.purchase_logs.length + 1 ∧
    ∃ a, ((add_credits now s uid m pkg).2).users uid = some a ∧
      a.is_admin = false ∧ a.is_premium = true ∧ a.used_minutes = 0 ∧
      a.remaining_minutes = (if m == -1 then (999999 : ℚ) else (m : ℚ)) := by
  unfold add_credits
  rw [h]
  exact ⟨rfl, by simp, _, setUser_self _ _ _, rfl, rfl, rfl, rfl⟩

/-- Witness for C10: a 300-minute starter purchase for an unseen user. -/
theorem fresh_account_credit_witness :
    (add_credits 11 store0 "fresh-uid" 300 "starter").1 = true ∧
    ((add_credits 11 store0 "fresh-uid" 300 "starter").2).purchase_logs.length =
      store0.purchase_logs.length + 1 ∧
    ∃ a, ((add_credits 11 store0 "fresh-uid" 300 "starter").2).users
        "fresh-uid" = some a ∧
      a.is_admin = false ∧ a.is_premium = true ∧ a.used_minutes = 0 ∧
      a.remaining_minutes =
        (if (300 : Int) == -1 then (999999 : ℚ) else ((300 : Int) : ℚ)) :=
  fresh_account_credit 11 store0 "fresh-uid" 300 "starter" (by decide)

lemma add_credits_fst (now : Nat) (s : Store) (uid : String) (m : Int)
    (pkg : String) : (add_credits now s uid m pkg).1 = true := by
  unfold add_credits
  cases s.users uid <;> rfl

lemma add_credits_iap_tx_eq (now : Nat) (s : Store) (uid : String) (m : Int)
    (pkg : String) :
    ((add_credits now s uid m pkg).2).iap_transactions = s.iap_transactions := by
  unfold add_credits
  cases s.users uid with
  | none => rfl
  | some u => by_cases hm : (m == -1) = true <;> simp [hm]

lemma add_credits_purchase_len (now : Nat) (s : Store) (uid : String) (m : Int)
    (pkg : String) :
    ((add_credits now s uid m pkg).2).purchase_logs.length =
      s.purchase_logs.length + 1 := by
  unfold add_credits
  cases s.users uid with
  | none => simp
  | some u => by_cases hm : (m == -1) = true <;> simp [hm]

lemma get_user_credits_iap_eq (el : Option String) (now : Nat) (s : Store)
    (uid : String) :
    ((get_user_credits el now s uid).2).iap_transactions =
      s.iap_transactions := by
  unfold get_user_credits
  split
  · rfl
  · split <;> rfl

lemma get_user_credits_plogs_eq (el : Option String) (now : Nat) (s : Store)
    (uid : String) :
    ((get_user_credits el now s uid).2).purchase_logs = s.purchase_logs := by
  unfold get_user_credits
  split
  · rfl
  · split <;> rfl

/-- The lazy schema patch in `get_user_credits` never changes the balance
counters of an existing account. -/
lemma get_user_credits_existing_balance (el : Option String) (now : Nat)
    (s : Store) (uid : String) (u : Account) (hu : s.users uid = some u) :
    ∃ u', ((get_user_credits el now s uid).2).users uid = some u' ∧
      u'.remaining_minutes = u.remaining_minutes ∧
      u'.used_minutes = u.used_minutes ∧
      u'.total_purchased_minutes = u.total_purchased_minutes := by
  cases he : u.email with
  | none =>
    simp only [get_user_credits, hu, he]
    exact ⟨_, setUser_self _ _ _, rfl, rfl, rfl⟩
  | some e =>
    simp only [get_user_credits, hu, he]
    exact ⟨u, rfl, rfl, rfl, rfl⟩

/-- Equation for `add_credits` on an existing account and a regular (non
sentinel) amount. -/
lemma add_credits_existing_regular_eq (now : Nat) (s : Store) (uid : String)
    (m : Int) (pkg : String) (u0 : Account) (hu0 : s.users uid = some u0)
    (hm : (m == -1) = false) :
    add_credits now s uid m pkg =
      (true,
        { users := setUser s.users uid
            { u0 with remaining_minutes := u0.remaining_minutes + (m : ℚ)
                      total_purchased_minutes :=
                        u0.total_purchased_minutes + (m : ℚ)
                      is_premium := true
                      is_unlimited := false
                      subscription_type := "premium"
                      subscription_expiry := some (now + 365) }
          usage_logs := s.usage_logs
          purchase_logs := s.purchase_logs ++
            [{ user_id := uid
               minutes_added := m
               package_type := pkg
               is_unlimited := false
               timestamp := now }]
          iap_transactions := s.iap_transactions }) := by
  unfold add_credits
  rw [hu0]
  simp [hm]

/-- Equation for `add_credits` on an unseen account. -/
lemma add_credits_fresh_eq (now : Nat) (s : Store) (uid : String) (m : Int)
    (pkg : String) (h : s.users uid = none) :
    add_credits now s uid m pkg =
      (true,
        { users := setUser s.users uid
            { email := none
              remaining_minutes := if m == -1 then 999999 else (m : ℚ)
              total_purchased_minutes := if m == -1 then 999999 else (m : ℚ)
              used_minutes := 0
              created_at := now
              is_admin := false
              is_premium := true
              is_unlimited := (m == -1)
              subscription_type := if m == -1 then "unlimited" else "premium"
              subscription_expiry := if m == -1 then none else some (now + 365)
              last_used := none }
          usage_logs := s.usage_logs
          purchase_logs := s.purchase_logs ++
            [{ user_id := uid
               minutes_added := m
               package_type := pkg
               is_unlimited := (m == -1)
               timestamp := now }]
          iap_transactions := s.iap_transactions }) := by
  unfold add_credits
  rw [h]

/-- Equation for `add_credits_iap` on a valid request whose transaction id
is not yet recorded. -/
lemma add_credits_iap_fresh_eq (el : Option String) (now : Nat) (s : Store)
    (req : IAPRequest)
    (hg : (req.user_id == "" || req.product_id == "" ||
      req.transaction_id == "") = false)
    (hp : (Config.PACKAGES.any fun p => p.1 == req.product_id) = true)
    (hf : txExists s req.transaction_id = false) :
    add_credits_iap el now s req =
      (.ok true ("Successfully added " ++ req.package_type),
        (get_user_credits el now
          { (add_credits now s req.user_id req.minutes req.package_type).2 with
            iap_transactions :=
              ((add_credits now s req.user_id req.minutes
                req.package_type).2).iap_transactions ++
              [{ user_id := req.user_id
                 product_id := req.product_id
                 transaction_id := req.transaction_id
                 minutes_added := req.minutes
                 package_type := req.package_type
                 timestamp := now
                 platform := "ios" }] }
          req.user_id).2) := by
  unfold add_credits_iap
  rw [hg, hp, hf]
  simp [add_credits_fst]

/-- Equation for `add_credits_iap` on a valid request whose transaction id
is already recorded: early return, no mutation. -/
lemma add_credits_iap_dup_eq (el : Option String) (now : Nat) (s : Store)
    (req : IAPRequest)
    (hg : (req.user_id == "" || req.product_id == "" ||
      req.transaction_id == "") = false)
    (hp : (Config.PACKAGES.any fun p => p.1 == req.product_id) = true)
    (ht : txExists s req.transaction_id = true) :
    add_credits_iap el now s req =
      (.ok false "Transaction already processed", s) := by
  unfold add_credits_iap
  rw [hg, hp, ht]
  simp

/-- Claim C2: a valid purchase request with a fresh transaction id, applied
twice, changes the balance once and appends exactly one purchase-log entry;
the second application sees the recorded transaction id before crediting,
mutates nothing (the returned store is the first call's store, unchanged)
and reports "Transaction already processed". -/
theorem purchase_idempotent (el1 el2 : Option String) (now1 now2 : Nat)
    (s : Store) (req : IAPRequest)
    (hg : (req.user_id == "" || req.product_id == "" ||
      req.transaction_id == "") = false)
    (hp : (Config.PACKAGES.any fun p => p.1 == req.product_id) = true)
    (hf : txExists s req.transaction_id = false) :
    add_credits_iap el2 now2 (add_credits_iap el1 now1 s req).2 req =
      (.ok false "Transaction already processed",
        (add_credits_iap el1 now1 s req).2) ∧
    ((add_credits_iap el1 now1 s req).2).purchase_logs.length =
      s.purchase_logs.length + 1 ∧
    (∀ u0, s.users req.user_id = some u0 → (req.minutes == -1) = false →
      ∃ u1, ((add_credits_iap el1 now1 s req).2).users req.user_id = some u1 ∧
        u1.remaining_minutes = u0.remaining_minutes + (req.minutes : ℚ)) ∧
    (s.users req.user_id = none → (req.minutes == -1) = false →
      ∃ u1, ((add_credits_iap el1 now1 s req).2).users req.user_id = some u1 ∧
        u1.remaining_minutes = (req.minutes : ℚ)) := by
  have h1 := add_credits_iap_fresh_eq el1 now1 s req hg hp hf
  have hf' : (s.iap_transactions.any
      fun t => t.transaction_id == req.transaction_id) = false := hf
  have htx : txExists (add_credits_iap el1 now1 s req).2
      req.transaction_id = true := by
    rw [h1]
    unfold txExists
    rw [get_user_credits_iap_eq]
    simp [add_credits_iap_tx_eq, List.any_append, hf']
  refine ⟨add_credits_iap_dup_eq el2 now2 _ req hg hp htx, ?_, ?_, ?_⟩
  · rw [h1, get_user_credits_plogs_eq]
    simpa using add_credits_purchase_len now1 s req.user_id req.minutes
      req.package_type
  · intro u0 hu0 hm
    have hadd := add_credits_existing_regular_eq now1 s req.user_id
      req.minutes req.package_type u0 hu0 hm
    rw [h1]
    set M : Store :=
      { (add_credits now1 s req.user_id req.minutes req.package_type).2 with
        iap_transactions :=
          ((add_credits now1 s req.user_id req.minutes
            req.package_type).2).iap_transactions ++
          [{ user_id := req.user_id
             product_id := req.product_id
             transaction_id := req.transaction_id
             minutes_added := req.minutes
             package_type := req.package_type
             timestamp := now1
             platform := "ios" }] } with hM
    have hmidu : M.users req.user_id = some
        { u0 with remaining_minutes := u0.remaining_minutes + (req.minutes : ℚ)
                  total_purchased_minutes :=
                    u0.total_purchased_minutes + (req.minutes : ℚ)
                  is_premium := true
                  is_unlimited := false
                  subscription_type := "premium"
                  subscription_expiry := some (now1 + 365) } := by
      rw [hM]
      show ((add_credits now1 s req.user_id req.minutes
        req.package_type).2).users req.user_id = _
      rw [hadd]
      exact setUser_self _ _ _
    obtain ⟨u1, hu1, hrem, -, -⟩ :=
      get_user_credits_existing_balance el1 now1 M req.user_id _ hmidu
    exact ⟨u1, hu1, by rw [hrem]⟩
  · intro hu0 hm
    have hadd := add_credits_fresh_eq now1 s req.user_id req.minutes
      req.package_type hu0
    rw [h1]
    set M : Store :=
      { (add_credits now1 s req.user_id req.minutes req.package_type).2 with
        iap_transactions :=
          ((add_credits now1 s req.user_id req.minutes
            req.package_type).2).iap_transactions ++
          [{ user_id := req.user_id
             product_id := req.product_id
             transaction_id := req.transaction_id
             minutes_added := req.minutes
             package_type := req.package_type
             timestamp := now1
             platform := "ios" }] } with hM
    have hmidu : M.users req.user_id = some
        { email := none
          remaining_minutes :=
            if req.minutes == -1 then 999999 else (req.minutes : ℚ)
          total_purchased_minutes :=
            if req.minutes == -1 then 999999 else (req.minutes : ℚ)
          used_minutes := 0
          created_at := now1
          is_admin := false
          is_premium := true
          is_unlimited := (req.minutes == -1)
          subscription_type :=
            if req.minutes == -1 then "unlimited" else "premium"
          subscription_expiry :=
            if req.minutes == -1 then none else some (now1 + 365)
          last_used := none } := by
      rw [hM]
      show ((add_credits now1 s req.user_id req.minutes
        req.package_type).2).users req.user_id = _
      rw [hadd]
      exact setUser_self _ _ _
    obtain ⟨u1, hu1, hrem, -, -⟩ :=
      get_user_credits_existing_balance el1 now1 M req.user_id _ hmidu
    refine ⟨u1, hu1, ?_⟩
    rw [hrem]
    simp [hm]

/-- Witness for C2: the starter purchase replayed twice against the
free-tier fixture. -/
theorem purchase_idempotent_witness :
    add_credits_iap (some "user@example.com") 13
        (add_credits_iap (some "user@example.com") 12 store0
          ⟨"user-uid", "com.voicetranslator.starter", "TX1", 300, "starter"⟩).2
        ⟨"user-uid", "com.voicetranslator.starter", "TX1", 300, "starter"⟩ =
      (.ok false "Transaction already processed",
        (add_credits_iap (some "user@example.com") 12 store0
          ⟨"user-uid", "com.voicetranslator.starter", "TX1", 300, "starter"⟩).2) ∧
    ((add_credits_iap (some "user@example.com") 12 store0
        ⟨"user-uid", "com.voicetranslator.starter", "TX1", 300, "starter"⟩).2).purchase_logs.length =
      store0.purchase_logs.length + 1 ∧
    (∀ u0, store0.users "user-uid" = some u0 → ((300 : Int) == -1) = false →
      ∃ u1, ((add_credits_iap (some "user@example.com") 12 store0
          ⟨"user-uid", "com.voicetranslator.starter", "TX1", 300, "starter"⟩).2).users
          "user-uid" = some u1 ∧
        u1.remaining_minutes = u0.remaining_minutes + ((300 : Int) : ℚ)) ∧
    (store0.users "user-uid" = none → ((300 : Int) == -1) = false →
      ∃ u1, ((add_credits_iap (some "user@example.com") 12 store0
          ⟨"user-uid", "com.voicetranslator.starter", "TX1", 300, "starter"⟩).2).users
          "user-uid" = some u1 ∧
        u1.remaining_minutes = ((300 : Int) : ℚ)) :=
  purchase_idempotent (some "user@example.com") (some "user@example.com")
    12 13 store0 ⟨"user-uid", "com.voicetranslator.starter", "TX1", 300, "starter"⟩
    (by decide) (by decide) (by decide)

/-- Example fixture: the base store with transaction id "TX9" already
recorded. -/
def storeTx : Store :=
  { store0 with iap_transactions :=
      [{ user_id := "user-uid"
         product_id := "com.voicetranslator.starter"
         transaction_id := "TX9"
         minutes_added := 300
         package_type := "starter"
         timestamp := 0
         platform := "ios" }] }

/-- Counterexample for C6: replaying an already-recorded transaction id
produces a response whose success flag is `false` ("Transaction already
processed"), so the surfaced response is not a success. -/
theorem duplicate_tx_not_success :
    (add_credits_iap (some "user@example.com") 20 storeTx
        ⟨"user-uid", "com.voicetranslator.starter", "TX9", 300, "starter"⟩).1 =
      .ok false "Transaction already processed" ∧
    IapResponse.isSuccess
      (add_credits_iap (some "user@example.com") 20 storeTx
        ⟨"user-uid", "com.voicetranslator.starter", "TX9", 300, "starter"⟩).1 =
      false := by
  exact ⟨by decide, by decide⟩

/-- Claim C6 (amended): a valid credit request bearing an already-recorded
transaction id is answered with a normal JSON body — not an HTTP error —
whose success flag is `false` and whose message is "Transaction already
processed", and the store is completely unchanged (idempotent no-op). -/
theorem duplicate_tx_response (el : Option String) (now : Nat) (s : Store)
    (req : IAPRequest)
    (hg : (req.user_id == "" || req.product_id == "" ||
      req.transaction_id == "") = false)
    (hp : (Config.PACKAGES.any fun p => p.1 == req.product_id) = true)
    (ht : txExists s req.transaction_id = true) :
    add_credits_iap el now s req =
      (.ok false "Transaction already processed", s) ∧
    IapResponse.isSuccess (add_credits_iap el now s req).1 = false := by
  have h := add_credits_iap_dup_eq el now s req hg hp ht
  exact ⟨h, by rw [h]; rfl⟩

/-- Witness for the amended C6 at the recorded-transaction fixture. -/
theorem duplicate_tx_response_witness :
    add_credits_iap (some "user@example.com") 21 storeTx
        ⟨"user-uid", "com.voicetranslator.starter", "TX9", 300, "starter"⟩ =
      (.ok false "Transaction already processed", storeTx) ∧
    IapResponse.isSuccess
      (add_credits_iap (some "user@example.com") 21 storeTx
        ⟨"user-uid", "com.voicetranslator.starter", "TX9", 300, "starter"⟩).1 =
      false :=
  duplicate_tx_response (some "user@example.com") 21 storeTx
    ⟨"user-uid", "com.voicetranslator.starter", "TX9", 300, "starter"⟩
    (by decide) (by decide) (by decide)

/-- Claim C4 (refuted — lost update): `deduct_credits` is literally a read
of the user document followed by `debitCommit` on that snapshot (first
conjunct, definitional). Starting from the free-tier fixture (balance 30),
two debits of 18 = 0.6 × 30 minutes whose reads both happen before either
write (both commits use the snapshot read from the initial store) BOTH
return success, and the final balance is 12 — a single debit's worth —
although the claimed atomicity admits exactly one success. -/
theorem concurrent_debit_lost_update :
    (∀ (cfg : ModelConfig) (lt : Bool) (now : Nat) (s : Store) (uid : String)
        (m : ℚ),
      deduct_credits cfg lt now s uid m =
        match s.users uid with
        | none => (false, s)
        | some u => debitCommit cfg lt now s uid u m) ∧
    store0.users "user-uid" = some freeAccount ∧
    (debitCommit cfg0 false 1 store0 "user-uid" freeAccount 18).1 = true ∧
    (debitCommit cfg0 false 2
        (debitCommit cfg0 false 1 store0 "user-uid" freeAccount 18).2
        "user-uid" freeAccount 18).1 = true ∧
    ∃ u, ((debitCommit cfg0 false 2
        (debitCommit cfg0 false 1 store0 "user-uid" freeAccount 18).2
        "user-uid" freeAccount 18).2).users "user-uid" = some u ∧
      u.remaining_minutes = 12 := by
  have hcommit : ∀ (now : Nat) (s : Store),
      debitCommit cfg0 false now s "user-uid" freeAccount 18 =
        (true,
          { s with
            users := setUser s.users "user-uid"
              { freeAccount with
                remaining_minutes := 12
                used_minutes := 18
                last_used := some now }
            usage_logs := s.usage_logs ++
              [{ user_id := "user-uid"
                 minutes_used := 18
                 remaining_after := 12
                 timestamp := now
                 type := "translation"
                 audio_model := cfg0.audio_model
                 translation_model := cfg0.translation_model
                 quality_tier := cfg0.quality_tier }] }) := by
    intro now s
    unfold debitCommit
    norm_num [freeAccount]
  have h1 := hcommit 1 store0
  have h2 := hcommit 2
    (debitCommit cfg0 false 1 store0 "user-uid" freeAccount 18).2
  refine ⟨fun cfg lt now s uid m => rfl, by decide, by rw [h1], by rw [h2], ?_⟩
  rw [h2]
  refine ⟨{ freeAccount with
      remaining_minutes := 12
      used_minutes := 18
      last_used := some 2 }, ?_, rfl⟩
  simp [setUser]

/-- Claim C9 (refuted): when the usage-log append raises after the balance
write has committed, `deduct_credits` reports `false` (a failed debit) to
the caller even though the balance was debited: with the free-tier fixture,
a 10-minute debit under a failing log append returns `false` while the
stored balance drops to 20 and `used_minutes` rises to 10. -/
theorem log_failure_reports_failure :
    (deduct_credits cfg0 true 5 store0 "user-uid" 10).1 = false ∧
    ∃ u, ((deduct_credits cfg0 true 5 store0 "user-uid" 10).2).users
        "user-uid" = some u ∧
      u.remaining_minutes = 20 ∧ u.used_minutes = 10 := by
  have hstep : deduct_credits cfg0 true 5 store0 "user-uid" 10 =
      (false,
        { store0 with
          users := setUser store0.users "user-uid"
            { freeAccount with
              remaining_minutes := 20
              used_minutes := 10
              last_used := some 5 } }) := by
    unfold deduct_credits debitCommit
    rw [show store0.users "user-uid" = some freeAccount from by decide]
    norm_num [freeAccount]
  rw [hstep]
  refine ⟨rfl, { freeAccount with
      remaining_minutes := 20
      used_minutes := 10
      last_used := some 5 }, ?_, rfl, rfl⟩
  simp [setUser]
